import Mathlib

/-!
# Verification of the libbitcoin-blockchain header organizer core

A shallow embedding of `src/organizers/header_organizer.cpp` and
`src/validate/validate_header.cpp`.  The callback-chained control flow of the
C++ (organize → check → accept → handle_populated → handle_accept →
handle_complete) is embedded as Lean functions in continuation-passing style:
each embedded function receives the handler it was bound with (a
`Handler : Nat → List Event`) and returns the list of observable events the
call emits — lock acquisition/release, pool insertion, index reorganization,
fatal logging, and handler (callback) invocations.  The environment record
`OrganizeEnv` fixes the results of the collaborator calls the code makes
(`validator_.check`, `branch->empty()`, the populator's completion code,
`header->accept()`, `fast_chain_.get_work`, `fast_chain_.reorganize`, the
stop flags observed at each continuation boundary, and the branch
null/empty observations), so every execution path of the source is a value
of `OrganizeEnv`.
-/

namespace HeaderOrganizer

/-- Error codes are `std::error_code` values embedded as `Nat`; `0` is
`error::success`, matching the C++ truth test `if (ec)`.  Only two concrete
values influence control flow in the embedded source: success (`0`) and the
code `51` exempted from fatal logging in `handle_accept`
(`if (ec.value() != 51)`), which is `error::duplicate_block`.  The remaining
constants are kept distinct and non-zero; their exact values do not matter. -/
def success : Nat := 0

/-- `error::service_stopped`. -/
def serviceStopped : Nat := 1

/-- `error::operation_failed`. -/
def operationFailed : Nat := 2

/-- `error::insufficient_work`. -/
def insufficientWork : Nat := 48

/-- `error::duplicate_block`; its value `51` is exempted from fatal logging in
`header_organizer::handle_accept`. -/
def duplicateBlock : Nat := 51

/-- Observable events emitted by one `organize` call, in program order. -/
inductive Event where
  /-- `mutex_.lock_high_priority()` in `header_organizer::organize`. -/
  | lock_acquire
  /-- `mutex_.unlock_high_priority()` in `header_organizer::handle_complete`. -/
  | lock_release
  /-- `validator_.accept(branch, accept_handler)` was invoked. -/
  | validate_accept
  /-- `header->accept()` (the contextual header checks) was invoked. -/
  | header_accept
  /-- `pool_.add(top, branch_top_height)`; carries the height argument. -/
  | pool_add (height : Nat)
  /-- `fast_chain_.reorganize(fork_point, branch_headers)` was invoked. -/
  | reorg
  /-- A `LOG_FATAL(LOG_BLOCKCHAIN)` statement executed. -/
  | log_fatal
  /-- A handler (callback) invocation carrying its code argument. -/
  | callback (c : Nat)
deriving DecidableEq, Repr

/-- A result handler: receives a code, produces the events of its own run. -/
abbrev Handler := Nat → List Event

/-- The outcomes of every collaborator call made during one
`header_organizer::organize` run, fixing one execution path of the source. -/
structure OrganizeEnv where
  /-- Result of `validator_.check(header)`. -/
  checkResult : Nat
  /-- Result of `branch->empty()` after `pool_.get_branch(header)`. -/
  branchEmpty : Bool
  /-- Whether the `branch` pointer tests null in
  `validate_header::handle_populated` (`if (branch)`). -/
  branchNull : Bool
  /-- Whether `branch->top()` returns null in
  `validate_header::handle_populated` (`if (header != nullptr)`). -/
  topNull : Bool
  /-- The validator's `stopped_` flag as observed by
  `validate_header::handle_populated`. -/
  stoppedValidator : Bool
  /-- The organizer's `stopped_` flag as observed by
  `header_organizer::handle_accept`. -/
  stoppedOrganizer : Bool
  /-- The code the populator delivers to `handle_populated` (the `ec`
  argument of the bound continuation). -/
  populateResult : Nat
  /-- `header->metadata.validated` of the branch top. -/
  validated : Bool
  /-- Result of `header->accept()`, the contextual checks. -/
  acceptResult : Nat
  /-- Whether `fast_chain_.get_work(...)` returns true. -/
  getWorkOk : Bool
  /-- `branch->work()`, the branch's accumulated work (a `uint256_t`). -/
  work : Nat
  /-- The `required_work` output of `fast_chain_.get_work`. -/
  requiredWork : Nat
  /-- `branch->top_height()`. -/
  topHeight : Nat
  /-- Result of `fast_chain_.reorganize(fork_point, branch_headers)`. -/
  reorgResult : Nat
deriving DecidableEq, Repr

/-- `header_organizer::handle_complete(ec, handler)`: releases the
high-priority write lock, then invokes the caller's handler outside the
critical section. -/
def handle_complete (handler : Handler) (ec : Nat) : List Event :=
  Event.lock_release :: handler ec

/-- `header_organizer::handle_accept(ec, branch, handler)`.  Checks the stop
flag, propagates an incoming error (logging fatally unless the code is 51),
queries `get_work`, compares branch work against required work, and either
pools the top with `insufficient_work` or reorganizes the index. -/
def handle_accept (env : OrganizeEnv) (handler : Handler) (ec : Nat) :
    List Event :=
  if env.stoppedOrganizer then
    handler serviceStopped
  else if ec ≠ 0 then
    (if ec ≠ 51 then [Event.log_fatal] else []) ++ handler ec
  else if ¬ env.getWorkOk then
    handler operationFailed
  else if env.work ≤ env.requiredWork then
    Event.pool_add env.topHeight :: handler insufficientWork
  else
    Event.reorg ::
      (if env.reorgResult ≠ 0 then
        Event.log_fatal :: handler env.reorgResult
      else
        handler env.reorgResult)

/-- `validate_header::handle_populated(ec, branch, handler)`.  Checks the
validator's stop flag, propagates an incoming error, then guards the branch
pointer and `branch->top()` against null (the source's crash fix): on either
null observation it only logs (at verbose severity) and returns — the handler
is not invoked on those two paths.  Otherwise it short-circuits success when
`header->metadata.validated` is set, else runs `header->accept()`.
(The `BITCOIN_ASSERT(header->metadata.state)` is a debug-only assertion and
is not an observable effect.) -/
def handle_populated (env : OrganizeEnv) (handler : Handler) (ec : Nat) :
    List Event :=
  if env.stoppedValidator then
    handler serviceStopped
  else if ec ≠ 0 then
    handler ec
  else if env.branchNull then
    []
  else if env.topNull then
    []
  else if env.validated then
    handler success
  else
    Event.header_accept :: handler env.acceptResult

/-- `validate_header::accept(branch, handler)`: hands the branch to
`header_populator_.populate`, binding `handle_populated` as the completion.
The populator (`populate_header`, a sibling module outside this repository's
sources) is modelled as delivering one completion code, `env.populateResult`,
to the bound continuation. -/
def validate_accept (env : OrganizeEnv) (handler : Handler) : List Event :=
  Event.validate_accept :: handle_populated env handler env.populateResult

/-- `header_organizer::organize(header, handler)`.  Runs the context-free
`validator_.check` before taking any lock; on failure calls the handler
immediately.  Otherwise binds `complete` (= `handle_complete`), acquires the
high-priority write lock, builds the branch, completes with
`duplicate_block` when the branch is empty, else invokes `validator_.accept`
with `handle_accept` (bound over `complete`) as its handler. -/
def organize (env : OrganizeEnv) (handler : Handler) : List Event :=
  if env.checkResult ≠ 0 then
    handler env.checkResult
  else
    Event.lock_acquire ::
      (if env.branchEmpty then
        handle_complete handler duplicateBlock
      else
        validate_accept env (handle_accept env (handle_complete handler)))

/-- The caller's result handler, recorded as a single `callback` event. -/
def callerHandler : Handler := fun c => [Event.callback c]

/-- One full `organize` run observed by the caller. -/
def organizeRun (env : OrganizeEnv) : List Event :=
  organize env callerHandler

/-- The codes delivered to the caller's handler during a run, in order. -/
def callbacks (t : List Event) : List Nat :=
  t.filterMap fun e =>
    match e with
    | Event.callback c => some c
    | _ => none

/-! ## The context-free check (`validate_header::check`)

`validate_header::check` delegates to `header->check(timestamp_limit_seconds,
proof_of_work_limit, scrypt_)`, passing only the two settings and the scrypt
flag; it reads neither the chain, nor the pool, nor the populator, nor the
`stopped_` flag. -/

/-- The context-free error codes of the spec's outcome taxonomy; distinct,
non-zero values (their exact values do not matter). -/
def invalidProofOfWork : Nat := 40

/-- `invalid_timestamp` in the outcome taxonomy. -/
def invalidTimestamp : Nat := 41

/-- `invalid_bits` in the outcome taxonomy. -/
def invalidBits : Nat := 42

/-- `invalid_version` in the outcome taxonomy (structural rejection of a
version outside the valid range). -/
def invalidVersion : Nat := 43

/-- Structural rejection of a null previous-hash on a non-genesis header;
the spec's taxonomy folds structural rejections into the `invalid_*` kinds,
so this is kept as its own distinct, non-zero value. -/
def invalidPreviousHash : Nat := 44

/-- The header's own wire fields (version, previous-hash, merkle-root,
timestamp, bits, nonce); the 32-byte hashes are embedded as `Nat`. -/
structure HeaderFields where
  version : Nat
  previousHash : Nat
  merkleRoot : Nat
  timestamp : Nat
  bits : Nat
  nonce : Nat
deriving DecidableEq, Repr

/-- Modelled from the spec: `chain::header::check` is implemented in the
libbitcoin system library, outside this repository's sources.  The spec
(§4.D) gives its four context-free checks: proof-of-work
`hash(header) ≤ target(bits)` (double-SHA256 or scrypt per the flag);
`timestamp ≤ now + timestamp_limit_seconds`; `bits` within
`proof_of_work_limit` (non-zero, not below minimum difficulty); and the
structural check — version within the valid range, previous-hash non-null
unless the header is genesis.  The hash function (selected by the scrypt
flag) and the compact-target decoding are abstracted as the parameters
`hashFn` and `target`; `now` is the wall-clock reading the timestamp bound
uses.  The structural check's constants are fixed by the network, not by
the state of any component: `versionLo`/`versionHi` bound the valid version
range, and a header is genesis exactly when its hash is the network's
`genesisHash`. -/
def headerCheck (hashFn : Bool → HeaderFields → Nat) (target : Nat → Nat)
    (now tsLimit powLimit versionLo versionHi genesisHash : Nat)
    (scrypt : Bool) (h : HeaderFields) : Nat :=
  if ¬ hashFn scrypt h ≤ target h.bits then
    invalidProofOfWork
  else if ¬ h.timestamp ≤ now + tsLimit then
    invalidTimestamp
  else if h.bits = 0 ∨ target powLimit < target h.bits then
    invalidBits
  else if ¬ (versionLo ≤ h.version ∧ h.version ≤ versionHi) then
    invalidVersion
  else if h.previousHash = 0 ∧ ¬ hashFn scrypt h = genesisHash then
    invalidPreviousHash
  else
    success

/-- The full state a `validate_header` instance (and its surrounding
organizer) can reach through: the chain index and header pool are embedded
abstractly, as arbitrary values of their own types, since `check` is claimed
not to read them. -/
structure ValidatorState (Chain Pool : Type) where
  /-- The validator's `stopped_` flag. -/
  stopped : Bool
  /-- The `fast_chain` the populator holds a reference to. -/
  chain : Chain
  /-- The header pool held by the surrounding organizer. -/
  pool : Pool
  /-- The organizer's `stopped_` flag. -/
  organizerStopped : Bool
  /-- The `scrypt_` flag fixed at construction. -/
  scrypt : Bool
  /-- `bitcoin_settings_.timestamp_limit_seconds`. -/
  timestampLimitSeconds : Nat
  /-- `bitcoin_settings_.proof_of_work_limit`. -/
  proofOfWorkLimit : Nat

/-- `validate_header::check(header)`: delegates to `header->check` with the
instance's two settings and scrypt flag.  No field of the state other than
`scrypt`, `timestampLimitSeconds` and `proofOfWorkLimit` is consulted; the
structural constants (`versionLo`, `versionHi`, `genesisHash`) are fixed
network constants of the header class, threaded like `hashFn` and
`target`. -/
def validateHeaderCheck {Chain Pool : Type}
    (hashFn : Bool → HeaderFields → Nat) (target : Nat → Nat)
    (now versionLo versionHi genesisHash : Nat)
    (s : ValidatorState Chain Pool) (h : HeaderFields) : Nat :=
  headerCheck hashFn target now s.timestampLimitSeconds s.proofOfWorkLimit
    versionLo versionHi genesisHash s.scrypt h

/-! ## Concrete environments used by witnesses and counterexamples -/

/-- A baseline environment: check succeeds, non-empty branch, no nulls, not
stopped, populate and accept succeed, `get_work` succeeds, branch work 2
against required work 1, reorganize succeeds. -/
def envBase : OrganizeEnv where
  checkResult := 0
  branchEmpty := false
  branchNull := false
  topNull := false
  stoppedValidator := false
  stoppedOrganizer := false
  populateResult := 0
  validated := false
  acceptResult := 0
  getWorkOk := true
  work := 2
  requiredWork := 1
  topHeight := 5
  reorgResult := 0

/-- The run in which `handle_populated` observes a null branch pointer. -/
def envNullBranch : OrganizeEnv :=
  { envBase with branchNull := true }

/-- The run in which `handle_populated` observes `branch->top() == nullptr`. -/
def envNullTop : OrganizeEnv :=
  { envBase with topNull := true }

/-! ## Claims -/

/-- C1: the spec requires the caller's handler to be invoked exactly once on
every execution path of `organize`, but on the path where
`validate_header::handle_populated` observes a null branch pointer the code
only logs and returns: the run ends after `validator_.accept` with no
callback at all (and, since `handle_complete` never runs, no lock release
either).  This evaluates the embedded code on that path. -/
theorem organize_drops_callback_on_null_branch :
    organizeRun envNullBranch = [Event.lock_acquire, Event.validate_accept] ∧
    callbacks (organizeRun envNullBranch) = [] := by
  decide

/-- C2: the spec requires every path of `organize` to release the write lock
exactly once before the caller's callback, but on the path where
`handle_populated` observes `branch->top() == nullptr` the handler chain is
dropped: the lock is acquired once, never released, and the callback never
runs.  This evaluates the embedded code on that path. -/
theorem organize_leaks_lock_on_null_top :
    (organizeRun envNullTop).count Event.lock_acquire = 1 ∧
    (organizeRun envNullTop).count Event.lock_release = 0 ∧
    callbacks (organizeRun envNullTop) = [] := by
  decide

/-- C3: in `handle_accept`, when branch work ≤ required work the top header
is added to the pool at `branch->top_height()` and the caller receives
`insufficient_work` (after the lock release in `handle_complete`); and
`fast_chain_.reorganize` is reached only when the branch's work strictly
exceeds the required work. -/
theorem handle_accept_work_comparison (env : OrganizeEnv)
    (h1 : env.stoppedOrganizer = false) (h2 : env.getWorkOk = true) :
    (env.work ≤ env.requiredWork →
      handle_accept env (handle_complete callerHandler) 0 =
        [Event.pool_add env.topHeight, Event.lock_release,
         Event.callback insufficientWork]) ∧
    (Event.reorg ∈ handle_accept env (handle_complete callerHandler) 0 →
      env.requiredWork < env.work) := by
  constructor
  · intro hle
    simp [handle_accept, handle_complete, callerHandler, h1, h2, hle]
  · intro hmem
    by_contra hlt
    push_neg at hlt
    simp [handle_accept, handle_complete, callerHandler, h1, h2, hlt] at hmem

/-- Witness for C3 at a concrete tied-work environment. -/
theorem handle_accept_work_comparison_witness :
    ({ envBase with work := 1 } : OrganizeEnv).stoppedOrganizer = false ∧
    (({ envBase with work := 1 } : OrganizeEnv).work ≤
        ({ envBase with work := 1 } : OrganizeEnv).requiredWork →
      handle_accept { envBase with work := 1 }
          (handle_complete callerHandler) 0 =
        [Event.pool_add ({ envBase with work := 1 } : OrganizeEnv).topHeight,
         Event.lock_release, Event.callback insufficientWork]) ∧
    (Event.reorg ∈ handle_accept { envBase with work := 1 }
        (handle_complete callerHandler) 0 →
      ({ envBase with work := 1 } : OrganizeEnv).requiredWork <
        ({ envBase with work := 1 } : OrganizeEnv).work) :=
  ⟨rfl, handle_accept_work_comparison { envBase with work := 1 } rfl rfl⟩

/-- C4: when `fast_chain_.reorganize` fails inside `handle_accept`, the
failure is logged fatally and the caller's callback receives the same
underlying code, unmasked, after the lock release. -/
theorem handle_accept_reorg_failure_unmasked (env : OrganizeEnv)
    (h1 : env.stoppedOrganizer = false) (h2 : env.getWorkOk = true)
    (h3 : env.requiredWork < env.work) (h4 : env.reorgResult ≠ 0) :
    handle_accept env (handle_complete callerHandler) 0 =
      [Event.reorg, Event.log_fatal, Event.lock_release,
       Event.callback env.reorgResult] := by
  simp [handle_accept, handle_complete, callerHandler, h1, h2, h4,
    Nat.not_le.mpr h3]

/-- Witness for C4 at a concrete failing-reorganize environment. -/
theorem handle_accept_reorg_failure_witness :
    handle_accept { envBase with reorgResult := 77 }
        (handle_complete callerHandler) 0 =
      [Event.reorg, Event.log_fatal, Event.lock_release,
       Event.callback ({ envBase with reorgResult := 77 } :
         OrganizeEnv).reorgResult] :=
  handle_accept_reorg_failure_unmasked { envBase with reorgResult := 77 }
    rfl rfl (by decide) (by decide)

/-- C5: when the branch built under the lock is empty, the run is exactly
lock acquisition, lock release, and a `duplicate_block` callback; neither
`validator_.accept` nor `fast_chain_.reorganize` is invoked. -/
theorem organize_empty_branch_duplicate (env : OrganizeEnv)
    (h1 : env.checkResult = 0) (h2 : env.branchEmpty = true) :
    organizeRun env =
      [Event.lock_acquire, Event.lock_release,
       Event.callback duplicateBlock] ∧
    Event.validate_accept ∉ organizeRun env ∧
    Event.reorg ∉ organizeRun env := by
  have ht : organizeRun env =
      [Event.lock_acquire, Event.lock_release,
       Event.callback duplicateBlock] := by
    simp [organizeRun, organize, handle_complete, callerHandler, h1, h2]
  refine ⟨ht, ?_, ?_⟩ <;> rw [ht] <;> decide

/-- Witness for C5 at a concrete empty-branch environment. -/
theorem organize_empty_branch_duplicate_witness :
    organizeRun { envBase with branchEmpty := true } =
      [Event.lock_acquire, Event.lock_release,
       Event.callback duplicateBlock] ∧
    Event.validate_accept ∉ organizeRun { envBase with branchEmpty := true } ∧
    Event.reorg ∉ organizeRun { envBase with branchEmpty := true } :=
  organize_empty_branch_duplicate { envBase with branchEmpty := true } rfl rfl

/-- C6: when the context-free `validator_.check` fails, `organize` invokes
the caller's handler immediately with that code and never acquires the
lock; and whenever check succeeds, lock acquisition is the very first
event of the run. -/
theorem organize_check_failure_before_lock (env : OrganizeEnv)
    (h : env.checkResult ≠ 0) :
    organizeRun env = [Event.callback env.checkResult] ∧
    Event.lock_acquire ∉ organizeRun env ∧
    (∀ env2 : OrganizeEnv, env2.checkResult = 0 →
      (organizeRun env2).head? = some Event.lock_acquire) := by
  have ht : organizeRun env = [Event.callback env.checkResult] := by
    simp [organizeRun, organize, callerHandler, h]
  refine ⟨ht, ?_, ?_⟩
  · rw [ht]
    simp
  · intro env2 h2
    simp [organizeRun, organize, h2]

/-- Witness for C6 at a concrete failing check code. -/
theorem organize_check_failure_witness :
    organizeRun { envBase with checkResult := 41 } =
      [Event.callback ({ envBase with checkResult := 41 } :
        OrganizeEnv).checkResult] ∧
    Event.lock_acquire ∉ organizeRun { envBase with checkResult := 41 } ∧
    (∀ env2 : OrganizeEnv, env2.checkResult = 0 →
      (organizeRun env2).head? = some Event.lock_acquire) :=
  organize_check_failure_before_lock { envBase with checkResult := 41 }
    (by decide)

/-- C7: once `stop()` has completed (both the validator's and the
organizer's stop flags are set), an in-flight run that passed the check and
built a non-empty branch completes with a single `service_stopped` callback
after the lock release; moreover the stop check takes effect at each
continuation boundary separately — a stopped `handle_accept` and a stopped
`handle_populated` each reduce to `handler service_stopped` whatever code
reaches them. -/
theorem organize_stopped_service_stopped (env : OrganizeEnv)
    (hv : env.stoppedValidator = true) (ho : env.stoppedOrganizer = true)
    (hc : env.checkResult = 0) (hb : env.branchEmpty = false) :
    organizeRun env =
      [Event.lock_acquire, Event.validate_accept, Event.lock_release,
       Event.callback serviceStopped] ∧
    (∀ env2 : OrganizeEnv, ∀ handler : Handler, ∀ ec,
      env2.stoppedOrganizer = true →
        handle_accept env2 handler ec = handler serviceStopped) ∧
    (∀ env3 : OrganizeEnv, ∀ handler : Handler, ∀ ec,
      env3.stoppedValidator = true →
        handle_populated env3 handler ec = handler serviceStopped) := by
  refine ⟨?_, ?_, ?_⟩
  · simp [organizeRun, organize, validate_accept, handle_populated,
      handle_accept, handle_complete, callerHandler, hv, ho, hc, hb]
  · intro env2 handler ec h2
    simp [handle_accept, h2]
  · intro env3 handler ec h3
    simp [handle_populated, h3]

/-- Witness for C7 at a concrete stopped environment. -/
theorem organize_stopped_witness :
    organizeRun
        { envBase with stoppedValidator := true, stoppedOrganizer := true } =
      [Event.lock_acquire, Event.validate_accept, Event.lock_release,
       Event.callback serviceStopped] ∧
    (∀ env2 : OrganizeEnv, ∀ handler : Handler, ∀ ec,
      env2.stoppedOrganizer = true →
        handle_accept env2 handler ec = handler serviceStopped) ∧
    (∀ env3 : OrganizeEnv, ∀ handler : Handler, ∀ ec,
      env3.stoppedValidator = true →
        handle_populated env3 handler ec = handler serviceStopped) :=
  organize_stopped_service_stopped
    { envBase with stoppedValidator := true, stoppedOrganizer := true }
    rfl rfl rfl rfl

/-- C8: in `handle_populated`, when the top header's `metadata.validated`
flag is already set, validation short-circuits: the handler receives
success and `header->accept()` (the contextual checks) is not invoked. -/
theorem handle_populated_validated_short_circuit (env : OrganizeEnv)
    (h1 : env.stoppedValidator = false) (h2 : env.branchNull = false)
    (h3 : env.topNull = false) (h4 : env.validated = true) :
    (∀ handler : Handler, handle_populated env handler 0 = handler success) ∧
    Event.header_accept ∉ handle_populated env callerHandler 0 := by
  constructor
  · intro handler
    simp [handle_populated, h1, h2, h3, h4]
  · simp [handle_populated, callerHandler, h1, h2, h3, h4, success]

/-- Witness for C8 at a concrete already-validated environment. -/
theorem handle_populated_validated_witness :
    (∀ handler : Handler,
      handle_populated { envBase with validated := true } handler 0 =
        handler success) ∧
    Event.header_accept ∉
      handle_populated { envBase with validated := true } callerHandler 0 :=
  handle_populated_validated_short_circuit { envBase with validated := true }
    rfl rfl rfl rfl

/-- The exact condition under which one `organize` run reaches
`fast_chain_.reorganize`: check succeeded, the branch was non-empty, no stop
flag was observed, population succeeded, neither null guard fired, the
contextual checks passed (or were skipped because the top was already
validated), `get_work` succeeded, and the branch's work strictly exceeds the
required work. -/
def reachesReorganize (env : OrganizeEnv) : Prop :=
  env.checkResult = 0 ∧ env.branchEmpty = false ∧
  env.stoppedValidator = false ∧ env.populateResult = 0 ∧
  env.branchNull = false ∧ env.topNull = false ∧
  (env.validated = true ∨ env.acceptResult = 0) ∧
  env.stoppedOrganizer = false ∧ env.getWorkOk = true ∧
  env.requiredWork < env.work

/-- A `reorg` event occurs in `handle_accept` (run over the organizer's
`complete` and the caller's handler) exactly when no stop was observed, the
incoming code is success, `get_work` succeeded and the branch work strictly
exceeds the required work. -/
theorem reorg_mem_handle_accept (env : OrganizeEnv) (ec : Nat) :
    Event.reorg ∈ handle_accept env (handle_complete callerHandler) ec ↔
      env.stoppedOrganizer = false ∧ ec = 0 ∧ env.getWorkOk = true ∧
        env.requiredWork < env.work := by
  unfold handle_accept handle_complete callerHandler
  by_cases hso : env.stoppedOrganizer <;>
  by_cases hec : ec = 0 <;>
  by_cases hgw : env.getWorkOk <;>
  by_cases hw : env.work ≤ env.requiredWork <;>
  by_cases hrr : env.reorgResult = 0 <;>
  by_cases h51 : ec = 51 <;>
  simp_all [Nat.not_le] <;>
  · rw [if_neg (Nat.not_le.mpr hw)]
    simp

/-- A `reorg` event occurs in the `validator_.accept` stage (with
`handle_accept` bound as its handler) exactly when every remaining stage
succeeds and the branch work strictly exceeds the required work. -/
theorem reorg_mem_validate_accept (env : OrganizeEnv) :
    Event.reorg ∈
        validate_accept env
          (handle_accept env (handle_complete callerHandler)) ↔
      env.stoppedValidator = false ∧ env.populateResult = 0 ∧
        env.branchNull = false ∧ env.topNull = false ∧
        (env.validated = true ∨ env.acceptResult = 0) ∧
        env.stoppedOrganizer = false ∧ env.getWorkOk = true ∧
        env.requiredWork < env.work := by
  unfold validate_accept handle_populated
  by_cases hsv : env.stoppedValidator <;>
  by_cases hpr : env.populateResult = 0 <;>
  by_cases hbn : env.branchNull <;>
  by_cases htn : env.topNull <;>
  by_cases hv : env.validated <;>
  simp_all [reorg_mem_handle_accept, serviceStopped, success]
  tauto

/-- C9: `fast_chain_.reorganize` — the only operation of the organizer that
mutates the chain index — is invoked in a run exactly when every stage
succeeds and the branch's work strictly exceeds the required work; on every
other outcome (check failure, duplicate, accept error, stop, operation
failure, insufficient work) the run contains no `reorg` event, so the index
is left unmodified. -/
theorem reorganize_only_on_winning_branch (env : OrganizeEnv) :
    Event.reorg ∈ organizeRun env ↔ reachesReorganize env := by
  unfold organizeRun organize reachesReorganize
  by_cases hcr : env.checkResult = 0 <;>
  by_cases hbe : env.branchEmpty <;>
  simp_all [reorg_mem_validate_accept, handle_complete, callerHandler]

/-! ## Claim C10: dependence of `validate_header::check` -/

/-- A concrete header: timestamp 100 against a 10-second future limit. -/
def cxHeader : HeaderFields where
  version := 1
  previousHash := 7
  merkleRoot := 9
  timestamp := 100
  bits := 5
  nonce := 0

/-- A concrete validator state over `Nat`-embedded chain and pool. -/
def cxState : ValidatorState Nat Nat where
  stopped := false
  chain := 0
  pool := 0
  organizerStopped := false
  scrypt := false
  timestampLimitSeconds := 10
  proofOfWorkLimit := 5

/-- The same settings and scrypt flag as `cxState`, but a different chain
type and value, a different pool type and value, and both stop flags set. -/
def cxStateOther : ValidatorState Bool (List Nat) where
  stopped := true
  chain := true
  pool := [3, 4]
  organizerStopped := true
  scrypt := false
  timestampLimitSeconds := 10
  proofOfWorkLimit := 5

/-- Counterexample to C10 as stated: with the header, both settings, the
scrypt flag, the hash function, the target decoding and the structural
constants (version range 1–4, genesis hash 99) all held fixed, two
invocations of `check` still return different codes when the wall clock has
moved — at `now = 100` the header passes, at `now = 0` the same header is
rejected as too far in the future.  The returned code therefore does not
depend only on the header's fields and the fixed settings. -/
theorem check_result_depends_on_clock :
    validateHeaderCheck (fun _ _ => 0) id 100 1 4 99 cxState cxHeader =
      success ∧
    validateHeaderCheck (fun _ _ => 0) id 0 1 4 99 cxState cxHeader =
      invalidTimestamp ∧
    invalidTimestamp ≠ success := by
  decide

/-- C10 (amended): at a fixed clock reading, `validate_header::check` is
deterministic and independent of the chain, the pool, and the organizer
state — two validator instances agreeing only on the scrypt flag and the two
settings return the same code for every header, whatever their chain type
and value, pool type and value, and stop flags. -/
theorem check_independent_of_chain_pool_organizer
    {α β γ δ : Type} (hashFn : Bool → HeaderFields → Nat)
    (target : Nat → Nat) (now versionLo versionHi genesisHash : Nat)
    (s1 : ValidatorState α β) (s2 : ValidatorState γ δ)
    (hs : s1.scrypt = s2.scrypt)
    (ht : s1.timestampLimitSeconds = s2.timestampLimitSeconds)
    (hp : s1.proofOfWorkLimit = s2.proofOfWorkLimit)
    (h : HeaderFields) :
    validateHeaderCheck hashFn target now versionLo versionHi genesisHash
        s1 h =
      validateHeaderCheck hashFn target now versionLo versionHi genesisHash
        s2 h := by
  simp [validateHeaderCheck, hs, ht, hp]

/-- Witness for the amended C10: the two concrete states differ in chain
type and value, pool type and value, and stop flags, yet check agrees. -/
theorem check_independent_witness :
    cxState.scrypt = cxStateOther.scrypt ∧
    validateHeaderCheck (fun _ _ => 0) id 100 1 4 99 cxState cxHeader =
      validateHeaderCheck (fun _ _ => 0) id 100 1 4 99 cxStateOther
        cxHeader :=
  ⟨rfl, check_independent_of_chain_pool_organizer (fun _ _ => 0) id 100 1 4
    99 cxState cxStateOther rfl rfl rfl cxHeader⟩

end HeaderOrganizer
